import Mathlib

/-!
Shallow embedding of `src/main.py`, a thin wrapper around the docker-py
library: the `Docker` facade (`pull`, `build_with_output`, `run`) and the
top-level container-error report printed by `main`.

The engine (docker-py client) is modelled at its interface boundary: the
image lookup `client.images.get` becomes a function `String → Option Image`
(`none` meaning the engine raises `ImageNotFound`), the raw build response
becomes either a string or a decoded list of JSON chunks, and the pull
result becomes a tagged variant (single image, list, or not-found).
-/

set_option autoImplicit false

/-- A docker image handle as the code uses it: primary identifier and the
ordered list of human-assigned tags. -/
structure Image where
  id : String
  tags : List String
deriving DecidableEq

/-- One decoded JSON object from the build progress stream
(`json_stream(resp)` in `build_with_output`). `error` and `stream` hold the
values of the dict keys of the same names when present; `hasOtherKeys`
records whether the dict carries any further keys (this only matters for
Python truthiness of the dict in `last_event or 'Unknown'`). -/
structure Chunk where
  error : Option String
  stream : Option String
  hasOtherKeys : Bool
deriving DecidableEq

/-- Python truthiness of the chunk dict: a dict is truthy iff nonempty. -/
def chunkTruthy (c : Chunk) : Bool :=
  c.error.isSome || c.stream.isSome || c.hasOtherKeys

/-- The character class `[0-9a-f]` of the success regex. -/
def isHexDigitLower (c : Char) : Bool :=
  ('0' ≤ c && c ≤ '9') || ('a' ≤ c && c ≤ 'f')

/-- The literal text of the regex alternative `^Successfully built `. -/
def successfullyBuilt : List Char := "Successfully built ".data

/-- The literal text of the regex alternative `sha256:`. -/
def sha256Chars : List Char := "sha256:".data

/-- Python `$` (without MULTILINE) matches at the end of the string or just
before a single trailing newline, so matching effectively happens on the
string with one final newline removed. -/
def dropOneTrailingNewline (cs : List Char) : List Char :=
  match cs.getLast? with
  | some c => if c = '\n' then cs.dropLast else cs
  | none => cs

/-- `[0-9a-f]+$` once the end is reached: the remaining characters are a
nonempty run of lowercase hex digits. -/
def hexTail (cs : List Char) : Bool :=
  !cs.isEmpty && cs.all isHexDigitLower

/-- Leftmost occurrence of `sha256:` followed by `[0-9a-f]+` that reaches the
end of the (newline-stripped) text; returns the captured hex run. -/
def sha256Scan : List Char → Option (List Char)
  | [] => none
  | c :: rest =>
    if sha256Chars.isPrefixOf (c :: rest)
        && hexTail ((c :: rest).drop sha256Chars.length) then
      some ((c :: rest).drop sha256Chars.length)
    else sha256Scan rest

/-- Group 2 of `re.search(r'(^Successfully built |sha256:)([0-9a-f]+)$', s)`
as evaluated by Python's `re` module: the `^`-anchored alternative is tried
at the start of the string, otherwise the `sha256:` alternative is searched
left to right; in both cases the captured group is the hex run ending at
`$`. -/
def matchGroup2 (s : String) : Option String :=
  let cs := dropOneTrailingNewline s.data
  if successfullyBuilt.isPrefixOf cs
      && hexTail (cs.drop successfullyBuilt.length) then
    some (String.mk (cs.drop successfullyBuilt.length))
  else
    (sha256Scan cs).map String.mk

/-- One iteration of the candidate-identifier update in the build loop:
`if 'stream' in chunk: match = re.search(...); if match: image_id = match.group(2)`. -/
def candStep (imageId : Option String) (c : Chunk) : Option String :=
  match c.stream with
  | some s =>
    match matchGroup2 s with
    | some g => some g
    | none => imageId
  | none => imageId

/-- How the `for chunk in internal_stream` loop of `build_with_output` ends:
either a `BuildError` was raised from a chunk's `error` key, or the stream
was exhausted with the final `image_id` and `last_event` values. -/
inductive LoopExit where
  | errored (message : String)
  | finished (imageId : Option String) (lastEvent : Option Chunk)
deriving DecidableEq

/-- The `for chunk in internal_stream` loop of `build_with_output`, with the
running `image_id` and `last_event` as explicit state. -/
def buildEventLoop : List Chunk → Option String → Option Chunk → LoopExit
  | [], imageId, lastEvent => .finished imageId lastEvent
  | c :: rest, imageId, _lastEvent =>
    match c.error with
    | some m => .errored m
    | none => buildEventLoop rest (candStep imageId c) (some c)

/-- First positional argument of a raised `errors.BuildError`: either a
chunk's error message, a truthy `last_event` dict, or the literal string
`'Unknown'` (when `last_event` is `None` or a falsy empty dict). -/
inductive BuildErrReason where
  | msg (m : String)
  | event (c : Chunk)
  | unknownStr
deriving DecidableEq

/-- Observable outcome of `build_with_output`: the image returned by a
`client.images.get` lookup (recording the id it was called with), a raised
`errors.BuildError` (recording its reason and the teed diagnostic stream),
or an `errors.ImageNotFound` propagating out of `client.images.get`. -/
inductive BuildResult where
  | image (lookedUpId : String) (img : Image)
  | buildError (reason : BuildErrReason) (diag : List Chunk)
  | imageNotFound (id : String)
deriving DecidableEq

/-- `client.images.get(id)`: the engine lookup either yields an image or
raises `ImageNotFound`, which `build_with_output` does not catch. -/
def imagesGet (get : String → Option Image) (id : String) : BuildResult :=
  match get id with
  | some img => .image id img
  | none => .imageNotFound id

/-- `last_event or 'Unknown'`: the reason attached to the no-identifier
`BuildError`. A falsy (empty-dict) or absent last event degrades to the
literal `'Unknown'`. -/
def unresolvedReason : Option Chunk → BuildErrReason
  | some c => if chunkTruthy c then .event c else .unknownStr
  | none => .unknownStr

/-- The value of `resp = self.client.api.build(...)`: either a plain string
(older API) or a stream that `json_stream` decodes into chunks. -/
inductive ApiBuildResponse where
  | str (s : String)
  | stream (events : List Chunk)

/-- `Docker.build_with_output` after the engine call: the string case goes
straight to `images.get`; otherwise the event loop runs over the teed
stream (`itertools.tee` makes `result_stream` an independent copy of the
full decoded sequence, attached to any raised `BuildError`), then
`if image_id:` (Python truthiness: non-`None` and nonempty) dispatches to
`images.get(image_id)`, else `BuildError(last_event or 'Unknown',
result_stream)` is raised. -/
def Docker.build_with_output (get : String → Option Image) :
    ApiBuildResponse → BuildResult
  | .str s => imagesGet get s
  | .stream events =>
    match buildEventLoop events none none with
    | .errored m => .buildError (.msg m) events
    | .finished imageId lastEvent =>
      match imageId with
      | some id =>
        if id = "" then .buildError (unresolvedReason lastEvent) events
        else imagesGet get id
      | none => .buildError (unresolvedReason lastEvent) events

/-- The final value of the `image_id` variable over a whole event list. -/
def resolvedCandidate (events : List Chunk) : Option String :=
  events.foldl candStep none

/-- The final value of the `last_event` variable over an event list started
with `last_event = le`. -/
def lastChunk (l : List Chunk) (le : Option Chunk) : Option Chunk :=
  match l.getLast? with
  | some c => some c
  | none => le

/-- Whether a chunk carries a stream line that the success regex matches. -/
def matchesLine (c : Chunk) : Bool :=
  match c.stream with
  | some s => (matchGroup2 s).isSome
  | none => false

/-- The value of `self.client.images.pull(name)`: docker-py may return a
single image, a list of images, or raise `errors.ImageNotFound`. -/
inductive PullApiResult where
  | image (img : Image)
  | list (imgs : List Image)
  | imageNotFound
deriving DecidableEq

/-- Observable outcome of `Docker.pull`: an image handle, `None`, or an
uncaught `IndexError` from `pull_result[0]` on an empty list. -/
inductive PullReturn where
  | handle (img : Image)
  | noHandle
  | indexError
deriving DecidableEq

/-- `Docker.pull`: a list result is indexed at 0 (crashing when empty); a
single image is passed through; `ImageNotFound` is caught and `None` is
returned. -/
def Docker.pull : PullApiResult → PullReturn
  | .image img => .handle img
  | .list [] => .indexError
  | .list (i :: _) => .handle i
  | .imageNotFound => .noHandle

/-- Whether `Docker.pull` executes the list-length anomaly log statement
`logger.error("Docker pull failed (type(pull_result)=list, ...")`. -/
def pullListAnomalyLogged : PullApiResult → Bool
  | .list imgs => imgs.length != 1
  | _ => false

/-- Observable trace of `Docker.run`: the `image=` argument passed to
`self.client.containers.run` (or `none` if the call is never reached), and
whether an `IndexError` from `image.tags[0]` crashes the method first. -/
structure RunCall where
  engineImageRef : Option String
  crashedIndexError : Bool
deriving DecidableEq

/-- `Docker.run`: both the `logger.info` argument list and the
`containers.run` call evaluate `image.tags[0]`, so an image with no tags
raises `IndexError` before any engine call; otherwise the engine is invoked
with the first tag. -/
def Docker.run (image : Image) : RunCall :=
  match image.tags with
  | [] => ⟨none, true⟩
  | t :: _ => ⟨some t, false⟩

/-- The fields of a docker-py `errors.ContainerError` that `main` reads:
command, image reference, exit status and the (string form of the) stderr
payload. -/
structure ContainerError where
  command : String
  image : String
  exit_status : Int
  stderr : Option String

/-- The text printed by `main`'s `except errors.ContainerError` handler:
the two `print` calls, each appending a final newline, with
`str(err.stderr or '').replace(r'\n', '\n')` converting every literal
backslash-n sequence into a real line break. -/
def mainContainerErrorReport (e : ContainerError) : String :=
  "Command " ++ e.command ++ " in image " ++ e.image ++
    " returned non-zero exit status " ++ toString e.exit_status ++
    ". Output:\n" ++ "\n" ++
    String.replace (e.stderr.getD "") "\\n" "\n" ++ "\n"

/-! ### Helper lemmas about the build event loop and the success regex -/

theorem lastChunk_cons (c : Chunk) (rest : List Chunk) (le : Option Chunk) :
    lastChunk (c :: rest) le = lastChunk rest (some c) := by
  cases rest with
  | nil => rfl
  | cons d t =>
    unfold lastChunk
    rw [List.getLast?_cons_cons]
    cases hg : (d :: t).getLast? with
    | none => simp at hg
    | some x => rfl

theorem buildEventLoop_no_error (l : List Chunk) (acc : Option String)
    (le : Option Chunk) (h : ∀ c ∈ l, c.error = none) :
    buildEventLoop l acc le = .finished (l.foldl candStep acc) (lastChunk l le) := by
  induction l generalizing acc le with
  | nil => rfl
  | cons c rest ih =>
    have hc : c.error = none := h c (List.mem_cons_self c rest)
    have hrest : ∀ d ∈ rest, d.error = none := fun d hd => h d (List.mem_cons_of_mem c hd)
    simp only [buildEventLoop, hc, List.foldl_cons, lastChunk_cons]
    exact ih (candStep acc c) (some c) hrest

theorem buildEventLoop_errored (pre : List Chunk) (e : Chunk) (post : List Chunk)
    (m : String) (hpre : ∀ c ∈ pre, c.error = none) (he : e.error = some m)
    (acc : Option String) (le : Option Chunk) :
    buildEventLoop (pre ++ e :: post) acc le = .errored m := by
  induction pre generalizing acc le with
  | nil => simp only [List.nil_append, buildEventLoop, he]
  | cons c rest ih =>
    have hc : c.error = none := hpre c (List.mem_cons_self c rest)
    simp only [List.cons_append, buildEventLoop, hc]
    exact ih (fun d hd => hpre d (List.mem_cons_of_mem c hd)) _ _

theorem candStep_no_match (a : Option String) (d : Chunk)
    (hd : matchesLine d = false) : candStep a d = a := by
  cases hs : d.stream with
  | none => simp [candStep, hs]
  | some s =>
    simp only [matchesLine, hs] at hd
    cases hm : matchGroup2 s with
    | none => simp [candStep, hs, hm]
    | some g => rw [hm] at hd; simp at hd

theorem foldl_candStep_no_match (post : List Chunk) (a : Option String)
    (h : ∀ d ∈ post, matchesLine d = false) :
    post.foldl candStep a = a := by
  induction post generalizing a with
  | nil => rfl
  | cons d t ih =>
    rw [List.foldl_cons, candStep_no_match a d (h d (List.mem_cons_self d t))]
    exact ih a (fun x hx => h x (List.mem_cons_of_mem d hx))

theorem hexTail_ne_nil {cs : List Char} (h : hexTail cs = true) : cs ≠ [] := by
  intro e; subst e; simp [hexTail] at h

theorem sha256Scan_ne_nil {l h : List Char} (hs : sha256Scan l = some h) : h ≠ [] := by
  induction l with
  | nil => simp [sha256Scan] at hs
  | cons c rest ih =>
    rw [sha256Scan] at hs
    split at hs
    · next hcond =>
      injection hs with hs'
      subst hs'
      exact hexTail_ne_nil (Bool.and_elim_right hcond)
    · exact ih hs

theorem string_mk_ne_empty {h : List Char} (hne : h ≠ []) : String.mk h ≠ "" := by
  intro e
  apply hne
  have hd : (String.mk h).data = ("" : String).data := congrArg String.data e
  simpa using hd

theorem matchGroup2_ne_empty {s g : String} (h : matchGroup2 s = some g) : g ≠ "" := by
  simp only [matchGroup2] at h
  split at h
  · next hcond =>
    injection h with h'
    subst h'
    exact string_mk_ne_empty (hexTail_ne_nil (Bool.and_elim_right hcond))
  · rw [Option.map_eq_some'] at h
    obtain ⟨a, ha, rfl⟩ := h
    exact string_mk_ne_empty (sha256Scan_ne_nil ha)

theorem foldl_candStep_ne_empty (l : List Chunk) (acc : Option String)
    (hacc : ∀ s, acc = some s → s ≠ "") :
    ∀ s, l.foldl candStep acc = some s → s ≠ "" := by
  induction l generalizing acc with
  | nil => exact hacc
  | cons c t ih =>
    rw [List.foldl_cons]
    apply ih
    intro s hs
    cases hstr : c.stream with
    | none =>
      rw [candStep_no_match acc c (by simp [matchesLine, hstr])] at hs
      exact hacc s hs
    | some str =>
      cases hm : matchGroup2 str with
      | none =>
        rw [candStep_no_match acc c (by simp [matchesLine, hstr, hm])] at hs
        exact hacc s hs
      | some g =>
        simp only [candStep, hstr, hm] at hs
        injection hs with h'
        subst h'
        exact matchGroup2_ne_empty hm

theorem resolvedCandidate_ne_empty {events : List Chunk} {id : String}
    (h : resolvedCandidate events = some id) : id ≠ "" :=
  foldl_candStep_ne_empty events none (fun _ hc => Option.noConfusion hc) id h

theorem build_with_output_stream_no_error (get : String → Option Image)
    (events : List Chunk) (h : ∀ c ∈ events, c.error = none) :
    Docker.build_with_output get (.stream events) =
      match resolvedCandidate events with
      | some id =>
        if id = "" then .buildError (unresolvedReason (lastChunk events none)) events
        else imagesGet get id
      | none => .buildError (unresolvedReason (lastChunk events none)) events := by
  simp only [Docker.build_with_output]
  rw [buildEventLoop_no_error events none none h]
  rfl

theorem dropOneTrailingNewline_concat (l : List Char) :
    dropOneTrailingNewline (l ++ ['\n']) = l := by
  unfold dropOneTrailingNewline
  rw [List.getLast?_concat]
  simp [List.dropLast_concat]

theorem dropOneTrailingNewline_no_newline (l : List Char)
    (hl : ∀ c, l.getLast? = some c → c ≠ '\n') :
    dropOneTrailingNewline l = l := by
  unfold dropOneTrailingNewline
  cases hg : l.getLast? with
  | none => rfl
  | some c => simp [hl c hg]

theorem isPrefixOf_append_self (l₁ l₂ : List Char) :
    l₁.isPrefixOf (l₁ ++ l₂) = true := by
  rw [List.isPrefixOf_iff_prefix]
  exact List.prefix_append l₁ l₂

theorem hexTail_of_all {h : List Char} (hne : h ≠ [])
    (hhex : h.all isHexDigitLower = true) : hexTail h = true := by
  cases h with
  | nil => exact absurd rfl hne
  | cons a t => simp only [hexTail, List.isEmpty_cons, Bool.not_false, Bool.true_and]; exact hhex

theorem matchGroup2_of_drop (s : String) (h : List Char)
    (hdrop : dropOneTrailingNewline s.data = successfullyBuilt ++ h)
    (hhex : h.all isHexDigitLower = true) (hne : h ≠ []) :
    matchGroup2 s = some (String.mk h) := by
  simp only [matchGroup2]
  rw [hdrop, isPrefixOf_append_self, List.drop_left]
  rw [hexTail_of_all hne hhex]
  simp

theorem matchGroup2_successfully_built (h : List Char)
    (hhex : h.all isHexDigitLower = true) (hne : h ≠ []) :
    matchGroup2 (String.mk (successfullyBuilt ++ h ++ ['\n'])) = some (String.mk h) :=
  matchGroup2_of_drop _ h (dropOneTrailingNewline_concat (successfullyBuilt ++ h)) hhex hne

theorem matchGroup2_successfully_built_bare (h : List Char)
    (hhex : h.all isHexDigitLower = true) (hne : h ≠ []) :
    matchGroup2 (String.mk (successfullyBuilt ++ h)) = some (String.mk h) := by
  apply matchGroup2_of_drop _ h _ hhex hne
  apply dropOneTrailingNewline_no_newline
  intro c hc
  rw [List.getLast?_append_of_ne_nil _ hne] at hc
  obtain ⟨hne', hcg⟩ := List.mem_getLast?_eq_getLast hc
  have hmem : c ∈ h := hcg ▸ List.getLast_mem hne'
  have hhc : isHexDigitLower c = true := List.all_eq_true.mp hhex c hmem
  intro e
  subst e
  simp [isHexDigitLower] at hhc

theorem build_with_output_resolved (get : String → Option Image)
    (events : List Chunk) (id : String)
    (hnoerr : ∀ x ∈ events, x.error = none)
    (hres : resolvedCandidate events = some id) (hid : id ≠ "") :
    Docker.build_with_output get (.stream events) = imagesGet get id := by
  rw [build_with_output_stream_no_error get _ hnoerr, hres]
  exact if_neg hid

theorem build_with_output_unresolved (get : String → Option Image)
    (events : List Chunk)
    (hnoerr : ∀ x ∈ events, x.error = none)
    (hres : resolvedCandidate events = none) :
    Docker.build_with_output get (.stream events) =
      .buildError (unresolvedReason (lastChunk events none)) events := by
  rw [build_with_output_stream_no_error get _ hnoerr, hres]

/-! ### Claims -/

/-- Claim C1: for every well-formed (error-free) event sequence that ends in a
stream line matching `Successfully built <hex>` (with or without the trailing
newline the engine emits), `build_with_output` records exactly that hex as
the candidate identifier and returns the result of the engine lookup
`client.images.get` called with exactly that identifier. -/
theorem C1_success_line_resolves_and_looks_up (get : String → Option Image)
    (init : List Chunk) (c : Chunk) (h : List Char)
    (hnoerr : ∀ x ∈ init ++ [c], x.error = none)
    (hstream : c.stream = some (String.mk (successfullyBuilt ++ h ++ ['\n'])) ∨
      c.stream = some (String.mk (successfullyBuilt ++ h)))
    (hhex : h.all isHexDigitLower = true) (hne : h ≠ []) :
    resolvedCandidate (init ++ [c]) = some (String.mk h) ∧
    Docker.build_with_output get (.stream (init ++ [c])) =
      imagesGet get (String.mk h) := by
  have hmatch : ∃ s, c.stream = some s ∧ matchGroup2 s = some (String.mk h) := by
    rcases hstream with hs | hs
    · exact ⟨_, hs, matchGroup2_successfully_built h hhex hne⟩
    · exact ⟨_, hs, matchGroup2_successfully_built_bare h hhex hne⟩
  obtain ⟨s, hs, hm⟩ := hmatch
  have hres : resolvedCandidate (init ++ [c]) = some (String.mk h) := by
    unfold resolvedCandidate
    rw [List.foldl_append]
    simp only [List.foldl_cons, List.foldl_nil, candStep, hs, hm]
  exact ⟨hres,
    build_with_output_resolved get _ _ hnoerr hres (string_mk_ne_empty hne)⟩

/-- Witness for C1: the spec's end-to-end scenario, `{"stream":"Step 1/2\n"}`
then `{"stream":"Successfully built a1b2c3d4\n"}`. -/
theorem C1_success_line_resolves_and_looks_up_witness :
    resolvedCandidate
        [Chunk.mk none (some "Step 1/2\n") false,
          Chunk.mk none (some "Successfully built a1b2c3d4\n") false] =
      some (String.mk "a1b2c3d4".data) ∧
    Docker.build_with_output (fun n => some (Image.mk n []))
        (.stream [Chunk.mk none (some "Step 1/2\n") false,
          Chunk.mk none (some "Successfully built a1b2c3d4\n") false]) =
      imagesGet (fun n => some (Image.mk n [])) (String.mk "a1b2c3d4".data) :=
  C1_success_line_resolves_and_looks_up (fun n => some (Image.mk n []))
    [Chunk.mk none (some "Step 1/2\n") false]
    (Chunk.mk none (some "Successfully built a1b2c3d4\n") false)
    "a1b2c3d4".data
    (by decide) (Or.inl (by decide)) (by decide) (by decide)

/-- Claim C2: with no error event, when the last success-pattern line of the
sequence is chunk `c` (every later chunk fails the pattern), the resolved
candidate is the hex captured from `c`, not from any earlier matching line
(of which at least one exists), and the engine lookup uses it. -/
theorem C2_last_match_wins (get : String → Option Image)
    (pre post : List Chunk) (c : Chunk) (s g : String)
    (hnoerr : ∀ x ∈ pre ++ c :: post, x.error = none)
    (_hearlier : pre.any matchesLine = true)
    (hs : c.stream = some s) (hm : matchGroup2 s = some g)
    (hpost : ∀ d ∈ post, matchesLine d = false) :
    resolvedCandidate (pre ++ c :: post) = some g ∧
    Docker.build_with_output get (.stream (pre ++ c :: post)) =
      imagesGet get g := by
  have hres : resolvedCandidate (pre ++ c :: post) = some g := by
    unfold resolvedCandidate
    rw [List.foldl_append, List.foldl_cons]
    rw [show candStep (pre.foldl candStep none) c = some g by
      simp only [candStep, hs, hm]]
    exact foldl_candStep_no_match post (some g) hpost
  exact ⟨hres,
    build_with_output_resolved get _ _ hnoerr hres (matchGroup2_ne_empty hm)⟩

/-- Witness for C2: an early `Successfully built aaaa` line is overridden by a
later ` ---> sha256:bbbb` line. -/
theorem C2_last_match_wins_witness :
    resolvedCandidate
        [Chunk.mk none (some "Successfully built aaaa\n") false,
          Chunk.mk none (some " ---> sha256:bbbb\n") false] = some "bbbb" ∧
    Docker.build_with_output (fun n => some (Image.mk n []))
        (.stream [Chunk.mk none (some "Successfully built aaaa\n") false,
          Chunk.mk none (some " ---> sha256:bbbb\n") false]) =
      imagesGet (fun n => some (Image.mk n [])) "bbbb" :=
  C2_last_match_wins (fun n => some (Image.mk n []))
    [Chunk.mk none (some "Successfully built aaaa\n") false] []
    (Chunk.mk none (some " ---> sha256:bbbb\n") false)
    " ---> sha256:bbbb\n" "bbbb"
    (by decide) (by decide) rfl (by decide) (by decide)

/-- Claim C3: an error event anywhere makes `build_with_output` raise a
`BuildError` carrying that event's message (the first error wins and later
events, which are arbitrary here, are never processed), and the image lookup
is never invoked: the outcome is neither an image nor an `ImageNotFound`
from `images.get`. -/
theorem C3_error_event_raises (get : String → Option Image)
    (pre post : List Chunk) (e : Chunk) (m : String)
    (hpre : ∀ x ∈ pre, x.error = none) (he : e.error = some m) :
    Docker.build_with_output get (.stream (pre ++ e :: post)) =
      .buildError (.msg m) (pre ++ e :: post) ∧
    (∀ id img, Docker.build_with_output get (.stream (pre ++ e :: post)) ≠
      .image id img) ∧
    (∀ id, Docker.build_with_output get (.stream (pre ++ e :: post)) ≠
      .imageNotFound id) := by
  have hmain : Docker.build_with_output get (.stream (pre ++ e :: post)) =
      .buildError (.msg m) (pre ++ e :: post) := by
    simp only [Docker.build_with_output]
    rw [buildEventLoop_errored pre e post m hpre he]
  exact ⟨hmain, fun id img => by rw [hmain]; simp, fun id => by rw [hmain]; simp⟩

/-- Witness for C3: the spec's failure scenario, `{"stream":"Step 1/2\n"}`
then `{"error":"no space left on device"}`. -/
theorem C3_error_event_raises_witness :
    Docker.build_with_output (fun n => some (Image.mk n []))
        (.stream [Chunk.mk none (some "Step 1/2\n") false,
          Chunk.mk (some "no space left on device") none false]) =
      .buildError (.msg "no space left on device")
        [Chunk.mk none (some "Step 1/2\n") false,
          Chunk.mk (some "no space left on device") none false] :=
  (C3_error_event_raises (fun n => some (Image.mk n []))
    [Chunk.mk none (some "Step 1/2\n") false] []
    (Chunk.mk (some "no space left on device") none false)
    "no space left on device" (by decide) rfl).1

/-- Claim C4: a sequence exhausted without error events and without any line
matching the success pattern (the empty sequence included) never yields an
image handle: `build_with_output` raises a `BuildError` whose reason is the
last observed event (or `'Unknown'`) and whose diagnostic payload is the
event sequence itself. -/
theorem C4_exhausted_without_match_raises (get : String → Option Image)
    (events : List Chunk)
    (hnoerr : ∀ x ∈ events, x.error = none)
    (hnomatch : ∀ x ∈ events, matchesLine x = false) :
    Docker.build_with_output get (.stream events) =
      .buildError (unresolvedReason (lastChunk events none)) events ∧
    (∀ id img, Docker.build_with_output get (.stream events) ≠ .image id img) := by
  have hres : resolvedCandidate events = none :=
    foldl_candStep_no_match events none hnomatch
  have hmain := build_with_output_unresolved get events hnoerr hres
  exact ⟨hmain, fun id img => by rw [hmain]; simp⟩

/-- Witness for C4: a single informational line and no success pattern. -/
theorem C4_exhausted_without_match_raises_witness :
    Docker.build_with_output (fun _ => none)
        (.stream [Chunk.mk none (some "Step 1/2\n") false]) =
      .buildError (.event (Chunk.mk none (some "Step 1/2\n") false))
        [Chunk.mk none (some "Step 1/2\n") false] :=
  (C4_exhausted_without_match_raises (fun _ => none)
    [Chunk.mk none (some "Step 1/2\n") false] (by decide) (by decide)).1

/-- Counterexample for C5 as stated: when the engine's pull returns the empty
list, `Docker.pull` does not yield "no handle"; `pull_result[0]` raises an
uncaught `IndexError` (the list-length anomaly is logged first). -/
theorem C5_counterexample_empty_list :
    Docker.pull (PullApiResult.list []) = PullReturn.indexError ∧
    Docker.pull (PullApiResult.list []) ≠ PullReturn.noHandle ∧
    pullListAnomalyLogged (PullApiResult.list []) = true := by decide

/-- Claim C5 (amended): when the engine's pull returns a list, a list of
length 1 yields that single image with no anomaly logged; a list of length 0
logs the anomaly and then raises an uncaught `IndexError` instead of
returning a handle. -/
theorem C5_amended_list_result (img : Image) :
    (Docker.pull (PullApiResult.list [img]) = PullReturn.handle img ∧
      pullListAnomalyLogged (PullApiResult.list [img]) = false) ∧
    (Docker.pull (PullApiResult.list []) = PullReturn.indexError ∧
      pullListAnomalyLogged (PullApiResult.list []) = true) :=
  ⟨⟨rfl, rfl⟩, rfl, rfl⟩

/-- Claim C6: when the stream resolved a candidate identifier but the engine
lookup `images.get` reports not-found, the failure surfaces as a propagated
`ImageNotFound`, an outcome distinct from every ordinary `BuildError`. -/
theorem C6_resolved_but_lookup_fails (get : String → Option Image)
    (events : List Chunk) (id : String)
    (hnoerr : ∀ x ∈ events, x.error = none)
    (hres : resolvedCandidate events = some id)
    (hget : get id = none) :
    Docker.build_with_output get (.stream events) = .imageNotFound id ∧
    (∀ r d, (BuildResult.imageNotFound id) ≠ .buildError r d) := by
  constructor
  · rw [build_with_output_resolved get events id hnoerr hres
      (resolvedCandidate_ne_empty hres)]
    simp only [imagesGet, hget]
  · intro r d
    simp

/-- Witness for C6: a successful build line whose hex the engine cannot
resolve. -/
theorem C6_resolved_but_lookup_fails_witness :
    Docker.build_with_output (fun _ => none)
        (.stream [Chunk.mk none (some "Successfully built 0a9f\n") false]) =
      .imageNotFound "0a9f" :=
  (C6_resolved_but_lookup_fails (fun _ => none)
    [Chunk.mk none (some "Successfully built 0a9f\n") false] "0a9f"
    (by decide) (by decide) rfl).1

/-- Claim C7: whenever `build_with_output` raises a `BuildError`, the teed
diagnostic copy attached to it is exactly the event sequence the interpreter
was fed, in the same order, however many events were processed before the
failure (the tee duplicates the stream without re-invoking the engine). -/
theorem C7_diagnostic_is_exact_stream (get : String → Option Image)
    (events : List Chunk) (r : BuildErrReason) (d : List Chunk)
    (h : Docker.build_with_output get (.stream events) = .buildError r d) :
    d = events := by
  simp only [Docker.build_with_output] at h
  split at h
  · injection h with h1 h2
    exact h2.symm
  · split at h
    · split at h
      · injection h with h1 h2
        exact h2.symm
      · unfold imagesGet at h
        split at h <;> simp at h
    · injection h with h1 h2
      exact h2.symm

/-- Witness for C7: an immediate error event; the diagnostic payload equals
the full input sequence. -/
theorem C7_diagnostic_is_exact_stream_witness :
    ([Chunk.mk (some "boom") none false] : List Chunk) =
      [Chunk.mk (some "boom") none false] :=
  C7_diagnostic_is_exact_stream (fun _ => none)
    [Chunk.mk (some "boom") none false] (BuildErrReason.msg "boom")
    [Chunk.mk (some "boom") none false] (by decide)

/-- Claim C8: the report printed by `main`'s `ContainerError` handler contains
the original command string, the image reference, the exit status, and the
stderr payload with every literal backslash-n sequence converted to a real
line break. -/
theorem C8_container_error_report (e : ContainerError) :
    e.command.data <:+: (mainContainerErrorReport e).data ∧
    e.image.data <:+: (mainContainerErrorReport e).data ∧
    (toString e.exit_status).data <:+: (mainContainerErrorReport e).data ∧
    (String.replace (e.stderr.getD "") "\\n" "\n").data <:+:
      (mainContainerErrorReport e).data := by
  refine ⟨⟨("Command " : String).data,
      ((" in image " ++ e.image ++ " returned non-zero exit status " ++
        toString e.exit_status ++ ". Output:\n" ++ "\n" ++
        String.replace (e.stderr.getD "") "\\n" "\n" ++ "\n" : String)).data, ?_⟩,
    ⟨(("Command " ++ e.command ++ " in image " : String)).data,
      ((" returned non-zero exit status " ++ toString e.exit_status ++
        ". Output:\n" ++ "\n" ++
        String.replace (e.stderr.getD "") "\\n" "\n" ++ "\n" : String)).data, ?_⟩,
    ⟨(("Command " ++ e.command ++ " in image " ++ e.image ++
        " returned non-zero exit status " : String)).data,
      ((". Output:\n" ++ "\n" ++
        String.replace (e.stderr.getD "") "\\n" "\n" ++ "\n" : String)).data, ?_⟩,
    ⟨(("Command " ++ e.command ++ " in image " ++ e.image ++
        " returned non-zero exit status " ++ toString e.exit_status ++
        ". Output:\n" ++ "\n" : String)).data,
      (("\n" : String)).data, ?_⟩⟩ <;>
  simp [mainContainerErrorReport, String.data_append, List.append_assoc]

/-- Claim C9: when the engine reports image-not-found during pull,
`Docker.pull` catches it and returns no handle rather than letting an
exception escape (so the caller can fall back to a build). -/
theorem C9_pull_image_not_found_recoverable :
    Docker.pull PullApiResult.imageNotFound = PullReturn.noHandle ∧
    PullReturn.noHandle ≠ PullReturn.indexError := by decide

/-- Claim C10: `Docker.run` identifies the image to the engine by the
handle's first tag `image.tags[0]`, independent of its primary identifier;
when the tag list is empty the method fails with an `IndexError` before any
`containers.run` engine call is made. -/
theorem C10_run_uses_first_tag (img : Image) :
    (img.tags = [] → Docker.run img = RunCall.mk none true) ∧
    (∀ t ts, img.tags = t :: ts → Docker.run img = RunCall.mk (some t) false) := by
  constructor
  · intro h
    unfold Docker.run
    rw [h]
  · intro t ts h
    unfold Docker.run
    rw [h]

/-- Witness for C10: a tagless image never reaches the engine; a tagged image
is passed by its first tag, not by its id. -/
theorem C10_run_uses_first_tag_witness :
    Docker.run (Image.mk "sha256:0123" []) = RunCall.mk none true ∧
    Docker.run (Image.mk "sha256:0123" ["mlcommons/mnist:0.0.1"]) =
      RunCall.mk (some "mlcommons/mnist:0.0.1") false :=
  ⟨(C10_run_uses_first_tag (Image.mk "sha256:0123" [])).1 rfl,
    (C10_run_uses_first_tag (Image.mk "sha256:0123" ["mlcommons/mnist:0.0.1"])).2
      "mlcommons/mnist:0.0.1" [] rfl⟩
